import Mathlib

/-!
Shallow embedding of `f5cs_eap_security_events_monitoring.py`, a script that
authenticates against the F5 Cloud Services API, queries WAF security events,
formats up to 20 of them into report rows, and sends an HTML email when at
least one row was produced.

Modelling conventions:
  * JSON object bodies of the auth endpoints and the token file are
    association lists `List (String × String)` (all values that the script
    touches are strings); dictionary lookup that raises `KeyError` on a
    missing key is `lookup` returning `Option`.
  * HTTP responses are supplied as explicit parameters (the environment's
    oracle); each function returns an `Outcome`: the Python return value or
    raised exception, the token-file state after the call, and the ordered
    trace of HTTP requests the call issued.
  * The module-level globals `username`, `password`, `refresh_token` that the
    source reads from inside function bodies are passed as explicit
    `g_`-prefixed parameters.
-/

set_option autoImplicit false

deriving instance DecidableEq for Except

namespace F5CS

/-! ### Python string containment (`needle in hay`) -/

/-- `leadsWith n h` is true when the list `n` is an initial segment of `h`. -/
def leadsWith : List Char → List Char → Bool
  | [], _ => true
  | _ :: _, [] => false
  | a :: as, b :: bs => if a = b then leadsWith as bs else false

/-- `occursIn n h` is true when `n` occurs contiguously somewhere in `h`. -/
def occursIn (n : List Char) : List Char → Bool
  | [] => leadsWith n []
  | b :: bs => leadsWith n (b :: bs) || occursIn n bs

/-- Python's `needle in hay` substring test. -/
def strContains (hay needle : String) : Bool :=
  occursIn needle.data hay.data

theorem leadsWith_refl (l : List Char) : leadsWith l l = true := by
  induction l with
  | nil => rfl
  | cons a as ih => simp [leadsWith, ih]

theorem occursIn_of_leadsWith {n h : List Char} (hw : leadsWith n h = true) :
    occursIn n h = true := by
  cases h with
  | nil => simpa [occursIn] using hw
  | cons b bs => simp [occursIn, hw]

theorem occursIn_append_of_right {n ys : List Char} (xs : List Char)
    (h : occursIn n ys = true) : occursIn n (xs ++ ys) = true := by
  induction xs with
  | nil => simpa using h
  | cons x xs ih => simp [occursIn, ih]

/-- Any string contains every suffix of itself, in particular `p ++ s`
contains `s`. -/
theorem strContains_append_right (p s : String) :
    strContains (p ++ s) s = true := by
  have hdata : (p ++ s).data = p.data ++ s.data := by
    cases p with
    | mk pd => cases s with
      | mk sd => rfl
  rw [strContains, hdata]
  exact occursIn_append_of_right p.data (occursIn_of_leadsWith (leadsWith_refl s.data))

/-! ### Dict lookup, exceptions, token store -/

/-- First-match association-list lookup; `none` models a Python `KeyError`
site when the caller indexes the dict. -/
def lookup : List (String × String) → String → Option String
  | [], _ => none
  | (k, v) :: rest, key => if k = key then some v else lookup rest key

/-- The Python exceptions the script can raise on the paths we model. -/
inductive PyErr where
  | authenticationError (msg : String)
  | keyError (key : String)
  | valueError (msg : String)
  | fileNotFoundError
deriving DecidableEq, Repr

/-- Contents of `tokens.yaml`: `none` is a missing file, `some kvs` the
key-value document last dumped to it. -/
def TokenStore := Option (List (String × String))

instance : DecidableEq TokenStore := by
  unfold TokenStore
  infer_instance

/-! ### HTTP model -/

/-- A response already parsed by `requests.Response.json()`:
status code plus the JSON object body. -/
structure Response where
  status : Nat
  body : List (String × String)
deriving DecidableEq, Repr

/-- One HTTP POST issued by the script: URL, JSON body, headers. -/
structure HttpRequest where
  url : String
  body : List (String × String)
  headers : List (String × String)
deriving DecidableEq, Repr

/-- Result of running one of the script's functions: the Python return value
or raised exception, the token-file state afterwards, and the ordered trace
of HTTP requests issued. -/
structure Outcome (α : Type) where
  result : Except PyErr α
  store : TokenStore
  requests : List HttpRequest

def login_url : String := "https://api.cloudservices.f5.com/v1/svc-auth/login"

def relogin_url : String := "https://api.cloudservices.f5.com/v1/svc-auth/relogin"

def sec_incidents_url : String :=
  "https://api.cloudservices.f5.com/waf/v1/analytics/security/events"

/-- The constant headers used by `login` and `relogin`. -/
def base_headers : List (String × String) :=
  [("Content-type", "application/json"), ("Accept-Encoding", "gzip, deflate, br"),
   ("Connection", "keep-alive")]

/-- Headers of the events query: the constant headers plus the bearer token. -/
def auth_headers (access_token : String) : List (String × String) :=
  base_headers ++ [("Authorization", "Bearer " ++ access_token)]

def login_request_of (username password : String) : HttpRequest :=
  { url := login_url, body := [("username", username), ("password", password)],
    headers := base_headers }

def relogin_request_of (username refresh_token : String) : HttpRequest :=
  { url := relogin_url,
    body := [("username", username), ("refresh_token", refresh_token)],
    headers := base_headers }

def authentication_error_msg : String :=
  "Can't authenticate to https://api.cloudservices.f5.com/v1/svc-auth/login. Incorrect username or password."

/-! ### AUTH CLIENT -/

/-- `login(username, password)` from the source. `resp` is the response the
login endpoint returns to the single POST.  A 400 whose body lacks `error`
raises `KeyError` (the source indexes `login_request.json()["error"]` inside
the short-circuited condition); a 400 whose error message contains
"Incorrect username or password" raises `AuthenticationError`; 200 dumps the
whole response body to `tokens.yaml` and returns the access token; every
other status falls off the end of the function, returning `None`. -/
def login (username password : String) (resp : Response) (st : TokenStore) :
    Outcome (Option String) :=
  if resp.status = 400 then
    match lookup resp.body "error" with
    | none => ⟨Except.error (PyErr.keyError "error"), st, [login_request_of username password]⟩
    | some e =>
      if strContains e "Incorrect username or password" then
        ⟨Except.error (PyErr.authenticationError authentication_error_msg), st,
          [login_request_of username password]⟩
      else
        ⟨Except.ok none, st, [login_request_of username password]⟩
  else if resp.status = 200 then
    match lookup resp.body "access_token" with
    | none => ⟨Except.error (PyErr.keyError "access_token"), st,
        [login_request_of username password]⟩
    | some tok => ⟨Except.ok (some tok), some resp.body, [login_request_of username password]⟩
  else
    ⟨Except.ok none, st, [login_request_of username password]⟩

/-- `relogin(username, refresh_token)` from the source.  `g_password` is the
module-level global `password` that the fallback `login(username, password)`
call reads; `rresp` answers the relogin POST and `lresp` answers the login
POST should the fallback fire.  A 400 whose error message contains
"Failed to re-login." falls back to `login`; 200 dumps
`{access_token, refresh_token}` (the refresh token being the one passed in)
and returns the new access token; every other status returns `None`. -/
def relogin (username refresh_token g_password : String)
    (rresp lresp : Response) (st : TokenStore) : Outcome (Option String) :=
  if rresp.status = 400 then
    match lookup rresp.body "error" with
    | none => ⟨Except.error (PyErr.keyError "error"), st,
        [relogin_request_of username refresh_token]⟩
    | some e =>
      if strContains e "Failed to re-login." then
        let o := login username g_password lresp st
        ⟨o.result, o.store, relogin_request_of username refresh_token :: o.requests⟩
      else
        ⟨Except.ok none, st, [relogin_request_of username refresh_token]⟩
  else if rresp.status = 200 then
    match lookup rresp.body "access_token" with
    | none => ⟨Except.error (PyErr.keyError "access_token"), st,
        [relogin_request_of username refresh_token]⟩
    | some tok =>
        ⟨Except.ok (some tok),
          some [("access_token", tok), ("refresh_token", refresh_token)],
          [relogin_request_of username refresh_token]⟩
  else
    ⟨Except.ok none, st, [relogin_request_of username refresh_token]⟩

/-! ### EVENTS CLIENT -/

/-- The JSON body of the events query, exactly as the source builds it.  The
fourth key is the literal string `"until:"` — the source's dict literal has a
trailing colon inside the quoted key (`"until:": time_until`). -/
def sec_incidents_body (service_instance_id subscription_id time_since time_until : String) :
    List (String × String) :=
  [("service_instance_id", service_instance_id), ("subscription_id", subscription_id),
   ("since", time_since), ("until:", time_until)]

def sec_incidents_request_of
    (service_instance_id subscription_id time_since time_until access_token : String) :
    HttpRequest :=
  { url := sec_incidents_url,
    body := sec_incidents_body service_instance_id subscription_id time_since time_until,
    headers := auth_headers access_token }

/-- Python `f-string` interpolation of a possibly-`None` value:
`f'Bearer {access_token}'` renders `None` as the string "None". -/
def pyInterp (o : Option String) : String :=
  match o with
  | some s => s
  | none => "None"

/-- `get_security_incidents(...)` from the source.  `r1` answers the first
events POST and `r2` the retry, as `(status, parsed json body)` pairs — the
events body type `β` is opaque to the function, which returns it unexamined.
`g_username`, `g_refresh_token`, `g_password` are the module-level globals the
401 branch reads (`relogin(username, refresh_token)`); `rresp`/`lresp` answer
the relogin/login POSTs if that branch fires.  On a 401 first status the
function runs `relogin` and reissues the query once with the token it
returned; otherwise it returns the first response's body. -/
def get_security_incidents {β : Type}
    (service_instance_id subscription_id time_since time_until access_token : String)
    (g_username g_refresh_token g_password : String)
    (r1 : Nat × β) (rresp lresp : Response) (r2 : Nat × β) (st : TokenStore) :
    Outcome β :=
  if r1.1 = 401 then
    match (relogin g_username g_refresh_token g_password rresp lresp st).result with
    | Except.error e =>
        ⟨Except.error e,
          (relogin g_username g_refresh_token g_password rresp lresp st).store,
          sec_incidents_request_of service_instance_id subscription_id time_since time_until
              access_token
            :: (relogin g_username g_refresh_token g_password rresp lresp st).requests⟩
    | Except.ok tok? =>
        ⟨Except.ok r2.2,
          (relogin g_username g_refresh_token g_password rresp lresp st).store,
          (sec_incidents_request_of service_instance_id subscription_id time_since time_until
              access_token
            :: (relogin g_username g_refresh_token g_password rresp lresp st).requests)
          ++ [sec_incidents_request_of service_instance_id subscription_id time_since time_until
              (pyInterp tok?)]⟩
  else
    ⟨Except.ok r1.2, st,
      [sec_incidents_request_of service_instance_id subscription_id time_since time_until
        access_token]⟩

/-- The events-endpoint queries within a request trace. -/
def eventsQueries (rs : List HttpRequest) : List HttpRequest :=
  rs.filter fun r => r.url = sec_incidents_url

/-! ### Date parsing/formatting (`datetime.strptime` / `strftime`) -/

/-- A naive `datetime.datetime` as far as the script uses it. -/
structure PyDateTime where
  year : Nat
  month : Nat
  day : Nat
  hour : Nat
  minute : Nat
  second : Nat
deriving DecidableEq, Repr

def digitVal (c : Char) : Option Nat :=
  if c.isDigit then some (c.toNat - 48) else none

/-- Parse one or two decimal digits, greedily (the `\d\x7b1,2\x7d`-style fields
`%m %d %H %M %S` of CPython's `_strptime`). -/
def parse2 : List Char → Option (Nat × List Char)
  | [] => none
  | [c1] =>
    match digitVal c1 with
    | some d1 => some (d1, [])
    | none => none
  | c1 :: c2 :: rest =>
    match digitVal c1, digitVal c2 with
    | some d1, some d2 => some (d1 * 10 + d2, rest)
    | some d1, none => some (d1, c2 :: rest)
    | none, _ => none

/-- Parse exactly four decimal digits (`%Y`). -/
def parse4 : List Char → Option (Nat × List Char)
  | a :: b :: c :: d :: rest => do
    let x ← digitVal a
    let y ← digitVal b
    let z ← digitVal c
    let w ← digitVal d
    pure (((x * 10 + y) * 10 + z) * 10 + w, rest)
  | _ => none

def expectChar (c : Char) : List Char → Option (List Char)
  | [] => none
  | x :: rest => if x = c then some rest else none

def isLeapYear (y : Nat) : Bool :=
  (y % 4 = 0 && y % 100 ≠ 0) || y % 400 = 0

def daysInMonth (y m : Nat) : Nat :=
  if m = 2 then (if isLeapYear y then 29 else 28)
  else if m = 4 ∨ m = 6 ∨ m = 9 ∨ m = 11 then 30
  else 31

/-- `datetime.datetime.strptime(s, "%Y-%m-%dT%H:%M:%SZ")`: full-string match,
fields in valid `datetime` ranges, `none` standing for the `ValueError` the
source would raise. -/
def strptime_event (s : String) : Option PyDateTime := do
  let (y, r1) ← parse4 s.data
  let r2 ← expectChar '-' r1
  let (mo, r3) ← parse2 r2
  let r4 ← expectChar '-' r3
  let (d, r5) ← parse2 r4
  let r6 ← expectChar 'T' r5
  let (h, r7) ← parse2 r6
  let r8 ← expectChar ':' r7
  let (mi, r9) ← parse2 r8
  let r10 ← expectChar ':' r9
  let (se, r11) ← parse2 r10
  let r12 ← expectChar 'Z' r11
  if r12 = [] ∧ 1 ≤ y ∧ 1 ≤ mo ∧ mo ≤ 12 ∧ 1 ≤ d ∧ d ≤ daysInMonth y mo
      ∧ h ≤ 23 ∧ mi ≤ 59 ∧ se ≤ 59 then
    pure ⟨y, mo, d, h, mi, se⟩
  else
    none

def pad2 (n : Nat) : String :=
  if n < 10 then "0" ++ toString n else toString n

def pad4 (n : Nat) : String :=
  if n < 10 then "000" ++ toString n
  else if n < 100 then "00" ++ toString n
  else if n < 1000 then "0" ++ toString n
  else toString n

/-- C-locale `%b` abbreviated month names. -/
def monthAbbrev : Nat → String
  | 1 => "Jan" | 2 => "Feb" | 3 => "Mar" | 4 => "Apr" | 5 => "May" | 6 => "Jun"
  | 7 => "Jul" | 8 => "Aug" | 9 => "Sep" | 10 => "Oct" | 11 => "Nov" | 12 => "Dec"
  | _ => ""

/-- `inc_time.strftime("%b %d, %Y/%H:%M:%S")`. -/
def strftime_report (t : PyDateTime) : String :=
  monthAbbrev t.month ++ " " ++ pad2 t.day ++ ", " ++ pad4 t.year ++ "/"
    ++ pad2 t.hour ++ ":" ++ pad2 t.minute ++ ":" ++ pad2 t.second

/-! ### REPORT BUILDER -/

/-- ASCII model of Python `str.title()`: the first alphabetic character of
each maximal alphabetic run is uppercased, the rest lowercased, other
characters are left alone. -/
def pyTitleAux : Bool → List Char → List Char
  | _, [] => []
  | prevCased, c :: rest =>
    if c.isAlpha then
      (if prevCased then c.toLower else c.toUpper) :: pyTitleAux true rest
    else
      c :: pyTitleAux false rest

def pyTitle (s : String) : String :=
  ⟨pyTitleAux false s.data⟩

/-- A raw SECURITY EVENT with the eight fields the loop pops.  The claims
about the report builder concern events that carry all of these fields. -/
structure RawEvent where
  date_time : String
  uri : String
  severity : String
  detection_events : List String
  attack_types : List String
  request_status : String
  source_ip : String
  geo_country : String
deriving DecidableEq, Repr

/-- A REPORT ROW: the `jinja_item_dict` built for one event. -/
structure Row where
  date_time : String
  uri : String
  severity : String
  detection_events : String
  attack_types : String
  request_status : String
  source_ip : String
  geo_country : String
deriving DecidableEq, Repr

/-- The body of the loop for one event: reparse/reformat `date_time`
(a malformed date is the `ValueError` of `strptime`), join the two list
fields with ", ", title-case `geo_country`, carry the rest unchanged. -/
def jinja_item_dict (e : RawEvent) : Except PyErr Row :=
  match strptime_event e.date_time with
  | none => Except.error (PyErr.valueError "time data does not match format %Y-%m-%dT%H:%M:%SZ")
  | some t =>
      Except.ok
        { date_time := strftime_report t
          uri := e.uri
          severity := e.severity
          detection_events := String.intercalate ", " e.detection_events
          attack_types := String.intercalate ", " e.attack_types
          request_status := e.request_status
          source_ip := e.source_ip
          geo_country := pyTitle e.geo_country }

/-- The driver loop over `security_incidents['events']` with counter `i`:
break before inspecting an event once `i ≥ 20`. -/
def build_rows_aux : List RawEvent → Nat → Except PyErr (List Row)
  | [], _ => Except.ok []
  | e :: rest, i =>
    if 20 ≤ i then Except.ok []
    else
      match jinja_item_dict e with
      | Except.error er => Except.error er
      | Except.ok r =>
        match build_rows_aux rest (i + 1) with
        | Except.error er => Except.error er
        | Except.ok rs => Except.ok (r :: rs)

/-- `sec_inc_items` as the driver computes it: the guarded loop starting at
`i = 0` (the `if len(...) > 0` guard, then the `for` loop). -/
def build_rows (events : List RawEvent) : Except PyErr (List Row) :=
  if 0 < events.length then build_rows_aux events 0 else Except.ok []

/-! ### NOTIFIER / driver email gating -/

/-- Modelled from the spec: the template file `jinja_table_1.html` that
`generate_html_email_body` loads is not in the repository, so the rendered
document is modelled as a deterministic HTML table of the rows
("renders a table of REPORT ROW"). -/
def generate_html_email_body (app_name : String) (rows : List Row) : String :=
  "<html><body><h1>" ++ app_name ++ "</h1><table>"
    ++ String.intercalate ""
        (rows.map fun r =>
          "<tr><td>" ++ r.date_time ++ "</td><td>" ++ r.uri ++ "</td><td>"
            ++ r.severity ++ "</td><td>" ++ r.detection_events ++ "</td><td>"
            ++ r.attack_types ++ "</td><td>" ++ r.request_status ++ "</td><td>"
            ++ r.source_ip ++ "</td><td>" ++ r.geo_country ++ "</td></tr>")
    ++ "</table></body></html>"

/-- The email the driver constructs. -/
structure EmailMsg where
  subject : String
  from_addr : String
  to_addr : String
  html : String
deriving DecidableEq, Repr

/-- The driver's tail: `if len(sec_inc_items) > 0:` render one HTML email
with subject `f'Attack detected for {app_name}'` and send it; otherwise do
nothing.  The returned list is the SMTP sends performed by the run. -/
def emails_sent (app_name email_address : String) (sec_inc_items : List Row) :
    List EmailMsg :=
  if 0 < sec_inc_items.length then
    [{ subject := "Attack detected for " ++ app_name
       from_addr := email_address
       to_addr := ""
       html := generate_html_email_body app_name sec_inc_items }]
  else
    []

/-! ### TOKEN STORE load (driver startup / §4.1) -/

/-- The driver's read of `tokens.yaml`: `data['access_token']`.  A missing
file is `FileNotFoundError`; a document without the key is `KeyError`. -/
def load_access_token (st : TokenStore) : Except PyErr String :=
  match st with
  | none => Except.error PyErr.fileNotFoundError
  | some kvs =>
    match lookup kvs "access_token" with
    | none => Except.error (PyErr.keyError "access_token")
    | some a => Except.ok a

/-- Sample raw event, the one from the spec's testable property. -/
def sampleEvent : RawEvent :=
  { date_time := "2023-06-01T09:32:00Z", uri := "/login", severity := "high",
    detection_events := ["sqli"], attack_types := ["sql injection"],
    request_status := "blocked", source_ip := "1.2.3.4", geo_country := "united states" }

/-- The report row the spec expects for `sampleEvent`. -/
def sampleRow : Row :=
  { date_time := "Jun 01, 2023/09:32:00", uri := "/login", severity := "high",
    detection_events := "sqli", attack_types := "sql injection",
    request_status := "blocked", source_ip := "1.2.3.4", geo_country := "United States" }

/-! ### Helper lemmas -/

theorem login_requests_eq (u p : String) (resp : Response) (st : TokenStore) :
    (login u p resp st).requests = [login_request_of u p] := by
  unfold login
  by_cases h4 : resp.status = 400
  · simp only [h4, if_true]
    rcases lookup resp.body "error" with _ | e
    · rfl
    · by_cases hc : strContains e "Incorrect username or password" = true <;>
        simp [hc]
  · by_cases h2 : resp.status = 200
    · simp only [h4, if_false, h2, if_true]
      rcases lookup resp.body "access_token" with _ | tok <;> rfl
    · simp [h4, h2]

theorem login_store_unchanged (u p : String) (resp : Response) (st : TokenStore)
    (h2 : ¬ resp.status = 200) : (login u p resp st).store = st := by
  unfold login
  by_cases h4 : resp.status = 400
  · simp only [h4, if_true]
    rcases lookup resp.body "error" with _ | e
    · rfl
    · by_cases hc : strContains e "Incorrect username or password" = true <;>
        simp [hc]
  · simp [h4, h2]

theorem relogin_store_unchanged (u rtok gp : String) (rr lr : Response)
    (st : TokenStore) (hr : ¬ rr.status = 200) (hl : ¬ lr.status = 200) :
    (relogin u rtok gp rr lr st).store = st := by
  unfold relogin
  by_cases h4 : rr.status = 400
  · simp only [h4, if_true]
    rcases lookup rr.body "error" with _ | e
    · rfl
    · by_cases hc : strContains e "Failed to re-login." = true <;>
        simp [hc, login_store_unchanged u gp lr st hl]
  · simp [h4, hr]

theorem relogin_requests_cases (u rtok gp : String) (rr lr : Response) (st : TokenStore) :
    (relogin u rtok gp rr lr st).requests = [relogin_request_of u rtok] ∨
    (relogin u rtok gp rr lr st).requests
      = [relogin_request_of u rtok, login_request_of u gp] := by
  unfold relogin
  by_cases h4 : rr.status = 400
  · simp only [h4, if_true]
    rcases lookup rr.body "error" with _ | e
    · exact Or.inl rfl
    · by_cases hc : strContains e "Failed to re-login." = true
      · simp only [hc, if_true]
        exact Or.inr (by simp [login_requests_eq u gp lr st])
      · simp [hc]
  · by_cases h2 : rr.status = 200
    · simp only [h4, if_false, h2, if_true]
      rcases lookup rr.body "access_token" with _ | tok
      · exact Or.inl rfl
      · exact Or.inl rfl
    · simp [h4, h2]

theorem relogin_no_events_queries (u rtok gp : String) (rr lr : Response)
    (st : TokenStore) :
    eventsQueries (relogin u rtok gp rr lr st).requests = [] := by
  rcases relogin_requests_cases u rtok gp rr lr st with h | h <;>
    simp [h, eventsQueries, relogin_request_of, login_request_of,
      relogin_url, login_url, sec_incidents_url]

theorem relogin_request_mem (u rtok gp : String) (rr lr : Response) (st : TokenStore) :
    relogin_request_of u rtok ∈ (relogin u rtok gp rr lr st).requests := by
  rcases relogin_requests_cases u rtok gp rr lr st with h | h <;> simp [h]

/-! ### Claims -/

/-- Claim C3: the report builder produces `min (number of events) 20` rows on
success, its output only depends on the first 20 events (events beyond the
20th are never inspected), and the empty input yields the empty row list with
no field extraction at all. -/
theorem c3_build_rows_capped (es : List RawEvent) (rows : List Row) :
    (build_rows es = Except.ok rows → rows.length = min es.length 20) ∧
    build_rows es = build_rows (es.take 20) ∧
    build_rows ([] : List RawEvent) = Except.ok [] := by
  refine ⟨?_, ?_, rfl⟩
  · intro h
    have aux : ∀ (l : List RawEvent) (i : Nat) (rs : List Row),
        build_rows_aux l i = Except.ok rs → rs.length = min l.length (20 - i) := by
      intro l
      induction l with
      | nil =>
        intro i rs hrs
        simp only [build_rows_aux] at hrs
        cases hrs
        simp
      | cons e rest ih =>
        intro i rs hrs
        by_cases hi : 20 ≤ i
        · simp only [build_rows_aux, hi, if_true] at hrs
          cases hrs
          simp
          omega
        · simp only [build_rows_aux, hi, if_false] at hrs
          rcases hj : jinja_item_dict e with er | r
          · rw [hj] at hrs
            exact absurd hrs (by simp)
          · rw [hj] at hrs
            rcases ha : build_rows_aux rest (i + 1) with er | rs'
            · rw [ha] at hrs
              exact absurd hrs (by simp)
            · rw [ha] at hrs
              cases hrs
              have hlen := ih (i + 1) rs' ha
              simp only [List.length_cons]
              omega
    unfold build_rows at h
    by_cases hlen : 0 < es.length
    · simp only [hlen, if_true] at h
      have := aux es 0 rows h
      simpa using this
    · simp only [hlen, if_false] at h
      cases h
      simp
      omega
  · have aux : ∀ (l : List RawEvent) (i : Nat),
        build_rows_aux l i = build_rows_aux (l.take (20 - i)) i := by
      intro l
      induction l with
      | nil => intro i; simp
      | cons e rest ih =>
        intro i
        by_cases hi : 20 ≤ i
        · have h0 : 20 - i = 0 := by omega
          simp [h0, build_rows_aux, hi]
        · have h20 : 20 - i = (20 - (i + 1)) + 1 := by omega
          rw [h20]
          simp only [List.take_succ_cons, build_rows_aux, hi, if_false]
          rw [ih (i + 1)]
    unfold build_rows
    by_cases hlen : 0 < es.length
    · have hlen' : 0 < (es.take 20).length := by
        simp [List.length_take]
        omega
      simp only [hlen, if_true, hlen', if_true]
      simpa using aux es 0
    · have h0 : es = [] := by
        cases es with
        | nil => rfl
        | cons a l => simp at hlen
      simp [h0]

/-- Witness for C3 at 21 identical events: exactly 20 rows come out. -/
theorem c3_witness :
    (List.replicate 20 sampleRow).length = min (List.replicate 21 sampleEvent).length 20 :=
  (c3_build_rows_capped (List.replicate 21 sampleEvent) (List.replicate 20 sampleRow)).1
    (by decide)

/-- Claim C4: for an event with all fields whose `date_time` parses in the
`%Y-%m-%dT%H:%M:%SZ` form, the row carries the reformatted date, the two
list fields joined with ", ", the title-cased country, and the remaining four
fields unchanged; concretely, "2023-06-01T09:32:00Z" becomes
"Jun 01, 2023/09:32:00", and the spec's sample event maps to the spec's
sample row. -/
theorem c4_row_formatting (e : RawEvent) (t : PyDateTime)
    (h : strptime_event e.date_time = some t) :
    jinja_item_dict e = Except.ok
      { date_time := strftime_report t
        uri := e.uri
        severity := e.severity
        detection_events := String.intercalate ", " e.detection_events
        attack_types := String.intercalate ", " e.attack_types
        request_status := e.request_status
        source_ip := e.source_ip
        geo_country := pyTitle e.geo_country } ∧
    strptime_event "2023-06-01T09:32:00Z" = some ⟨2023, 6, 1, 9, 32, 0⟩ ∧
    strftime_report ⟨2023, 6, 1, 9, 32, 0⟩ = "Jun 01, 2023/09:32:00" ∧
    pyTitle "united states" = "United States" ∧
    String.intercalate ", " ["sql injection"] = "sql injection" ∧
    jinja_item_dict sampleEvent = Except.ok sampleRow := by
  refine ⟨?_, by decide, by decide, by decide, by decide, by decide⟩
  simp [jinja_item_dict, h]

/-- Witness for C4 at the spec's sample event. -/
theorem c4_witness :
    jinja_item_dict sampleEvent = Except.ok
      { date_time := strftime_report ⟨2023, 6, 1, 9, 32, 0⟩
        uri := sampleEvent.uri
        severity := sampleEvent.severity
        detection_events := String.intercalate ", " sampleEvent.detection_events
        attack_types := String.intercalate ", " sampleEvent.attack_types
        request_status := sampleEvent.request_status
        source_ip := sampleEvent.source_ip
        geo_country := pyTitle sampleEvent.geo_country } :=
  (c4_row_formatting sampleEvent ⟨2023, 6, 1, 9, 32, 0⟩ (by decide)).1

/-- Claim C7: a 200 login whose body carries `access_token` returns that
token and dumps the whole body to `tokens.yaml`; loading the file right
after yields the same access token. -/
theorem c7_login_roundtrip (u p tok : String) (resp : Response) (st : TokenStore)
    (h200 : resp.status = 200) (htok : lookup resp.body "access_token" = some tok) :
    (login u p resp st).result = Except.ok (some tok) ∧
    (login u p resp st).store = some resp.body ∧
    load_access_token (login u p resp st).store = Except.ok tok := by
  have h4 : ¬ resp.status = 400 := by omega
  refine ⟨?_, ?_, ?_⟩ <;> simp [login, h200, h4, htok, load_access_token]

/-- Witness for C7 at a concrete 200 response. -/
theorem c7_witness :
    (login "u" "p"
        { status := 200, body := [("access_token", "tokA"), ("refresh_token", "r0")] }
        (none : TokenStore)).result = Except.ok (some "tokA") ∧
    (login "u" "p"
        { status := 200, body := [("access_token", "tokA"), ("refresh_token", "r0")] }
        (none : TokenStore)).store
      = some [("access_token", "tokA"), ("refresh_token", "r0")] ∧
    load_access_token (login "u" "p"
        { status := 200, body := [("access_token", "tokA"), ("refresh_token", "r0")] }
        (none : TokenStore)).store = Except.ok "tokA" :=
  c7_login_roundtrip "u" "p" "tokA"
    { status := 200, body := [("access_token", "tokA"), ("refresh_token", "r0")] }
    (none : TokenStore) rfl (by decide)

/-- Claim C8: a 200 relogin whose body carries `access_token` returns the new
token and persists exactly `{access_token: new, refresh_token: passed-in}`,
so the stored refresh token is the one the call received, unchanged. -/
theorem c8_relogin_preserves_refresh (u rtok gp newTok : String)
    (rr lr : Response) (st : TokenStore)
    (h200 : rr.status = 200) (htok : lookup rr.body "access_token" = some newTok) :
    (relogin u rtok gp rr lr st).result = Except.ok (some newTok) ∧
    (relogin u rtok gp rr lr st).store
      = some [("access_token", newTok), ("refresh_token", rtok)] ∧
    lookup ((relogin u rtok gp rr lr st).store.getD []) "refresh_token" = some rtok := by
  have h4 : ¬ rr.status = 400 := by omega
  refine ⟨?_, ?_, ?_⟩ <;> simp [relogin, h200, h4, htok, lookup]

/-- Witness for C8 at a concrete 200 relogin response. -/
theorem c8_witness :
    (relogin "u" "rt0" "pw" { status := 200, body := [("access_token", "tokB")] }
        { status := 0, body := [] } (none : TokenStore)).result
      = Except.ok (some "tokB") ∧
    (relogin "u" "rt0" "pw" { status := 200, body := [("access_token", "tokB")] }
        { status := 0, body := [] } (none : TokenStore)).store
      = some [("access_token", "tokB"), ("refresh_token", "rt0")] ∧
    lookup ((relogin "u" "rt0" "pw" { status := 200, body := [("access_token", "tokB")] }
        { status := 0, body := [] } (none : TokenStore)).store.getD [])
          "refresh_token" = some "rt0" :=
  c8_relogin_preserves_refresh "u" "rt0" "pw" "tokB"
    { status := 200, body := [("access_token", "tokB")] }
    { status := 0, body := [] } (none : TokenStore) rfl (by decide)

/-- Claim C9: the driver sends an email exactly when at least one row was
built — zero rows means no send, one or more rows means exactly one email
whose subject contains the configured application name. -/
theorem c9_email_gating (app_name email_address : String) (rows : List Row) :
    (rows.length = 0 → emails_sent app_name email_address rows = []) ∧
    (0 < rows.length →
      (emails_sent app_name email_address rows).length = 1 ∧
      ∀ m ∈ emails_sent app_name email_address rows,
        strContains m.subject app_name = true) := by
  constructor
  · intro h0
    simp [emails_sent, h0]
  · intro hpos
    refine ⟨by simp [emails_sent, hpos], ?_⟩
    intro m hm
    simp only [emails_sent, hpos, if_true, List.mem_singleton] at hm
    subst hm
    exact strContains_append_right "Attack detected for " app_name

/-- Witness for C9: one row sends exactly one email. -/
theorem c9_witness :
    (emails_sent "MyApp" "from@example.com" [sampleRow]).length = 1 :=
  ((c9_email_gating "MyApp" "from@example.com" [sampleRow]).2 (by decide)).1

/-- Claim C5: a 200 relogin never issues a login request; a 400 relogin whose
error message contains "Failed to re-login." returns exactly `login`'s result
and issues exactly one login request, carrying the original username and the
process's primary password. -/
theorem c5_relogin_fallback (u rtok gp : String) (rr lr : Response) (st : TokenStore) :
    (rr.status = 200 →
      ((relogin u rtok gp rr lr st).requests.filter fun r => r.url = login_url) = []) ∧
    (rr.status = 400 → ∀ e, lookup rr.body "error" = some e →
      strContains e "Failed to re-login." = true →
      (relogin u rtok gp rr lr st).result = (login u gp lr st).result ∧
      ((relogin u rtok gp rr lr st).requests.filter fun r => r.url = login_url)
        = [login_request_of u gp]) := by
  constructor
  · intro h2
    have h4 : ¬ rr.status = 400 := by omega
    rcases hl : lookup rr.body "access_token" with _ | tok <;>
      simp [relogin, h2, h4, hl, relogin_request_of, relogin_url, login_url]
  · intro h4 e he hc
    refine ⟨by simp [relogin, h4, he, hc], ?_⟩
    simp [relogin, h4, he, hc, login_requests_eq u gp lr st, relogin_request_of,
      login_request_of, relogin_url, login_url]

/-- Witness for C5: an expired refresh token falls back to one login call. -/
theorem c5_witness :
    (relogin "u" "rt" "pw" { status := 400, body := [("error", "Failed to re-login. Bad token")] }
          { status := 200, body := [("access_token", "t9")] } (none : TokenStore)).result
      = (login "u" "pw" { status := 200, body := [("access_token", "t9")] }
          (none : TokenStore)).result ∧
    ((relogin "u" "rt" "pw" { status := 400, body := [("error", "Failed to re-login. Bad token")] }
          { status := 200, body := [("access_token", "t9")] } (none : TokenStore)).requests.filter
        fun r => r.url = login_url)
      = [login_request_of "u" "pw"] :=
  (c5_relogin_fallback "u" "rt" "pw"
      { status := 400, body := [("error", "Failed to re-login. Bad token")] }
      { status := 200, body := [("access_token", "t9")] } (none : TokenStore)).2
    rfl "Failed to re-login. Bad token" (by decide) (by decide)

/-- Claim C6: a 400 login whose error message contains "Incorrect username or
password" raises `AuthenticationError`, leaves the token file untouched and
issues no second request; and both `login` and `relogin` only ever write the
token file after a 200 (for `relogin`, a 200 of its own endpoint or of the
login endpoint its fallback posts to). -/
theorem c6_login_fatal_no_write (u p rtok gp : String) (resp rr lr : Response)
    (st : TokenStore) :
    (resp.status = 400 → ∀ e, lookup resp.body "error" = some e →
      strContains e "Incorrect username or password" = true →
      (login u p resp st).result
          = Except.error (PyErr.authenticationError authentication_error_msg) ∧
      (login u p resp st).store = st ∧
      (login u p resp st).requests = [login_request_of u p]) ∧
    ((login u p resp st).store ≠ st → resp.status = 200) ∧
    ((relogin u rtok gp rr lr st).store ≠ st → rr.status = 200 ∨ lr.status = 200) := by
  refine ⟨?_, ?_, ?_⟩
  · intro h4 e he hc
    have h2 : ¬ resp.status = 200 := by omega
    exact ⟨by simp [login, h4, he, hc], login_store_unchanged u p resp st h2,
      login_requests_eq u p resp st⟩
  · intro hne
    by_contra h2
    exact hne (login_store_unchanged u p resp st h2)
  · intro hne
    by_contra hor
    push_neg at hor
    exact hne (relogin_store_unchanged u rtok gp rr lr st hor.1 hor.2)

/-- Witness for C6 at a concrete 400 response with the fatal message. -/
theorem c6_witness :
    (login "u" "p" { status := 400, body := [("error", "Incorrect username or password.")] }
        (none : TokenStore)).result
      = Except.error (PyErr.authenticationError authentication_error_msg) ∧
    (login "u" "p" { status := 400, body := [("error", "Incorrect username or password.")] }
        (none : TokenStore)).store = (none : TokenStore) ∧
    (login "u" "p" { status := 400, body := [("error", "Incorrect username or password.")] }
        (none : TokenStore)).requests = [login_request_of "u" "p"] :=
  (c6_login_fatal_no_write "u" "p" "rt" "pw"
      { status := 400, body := [("error", "Incorrect username or password.")] }
      { status := 0, body := [] } { status := 0, body := [] } (none : TokenStore)).1
    rfl "Incorrect username or password." (by decide) (by decide)

/-- Counterexample to claim C10 as stated: a 400 response whose body has no
`error` key is "neither 200 nor a 400 carrying the recognized error message",
yet `login` raises `KeyError` (the source indexes `json()["error"]` inside
the short-circuited condition) instead of returning `None`. -/
theorem c10_counterexample :
    (login "u" "p" { status := 400, body := [] } (none : TokenStore)).result
        ≠ Except.ok none ∧
    (login "u" "p" { status := 400, body := [] } (none : TokenStore)).result
        = Except.error (PyErr.keyError "error") ∧
    (relogin "u" "rt" "pw" { status := 400, body := [] } { status := 0, body := [] }
        (none : TokenStore)).result = Except.error (PyErr.keyError "error") := by
  refine ⟨?_, rfl, rfl⟩
  intro h
  cases h

/-- Claim C10 as amended: on a status other than 200 and 400 — or on a 400
whose `error` field does not contain the recognized message — `login` and
`relogin` return `None` without raising and without writing the token file;
a 400 whose body lacks an `error` field instead raises `KeyError` (still
writing nothing). -/
theorem c10_amended_silent_none (u p rtok gp : String) (resp rr lr : Response)
    (st : TokenStore) :
    (¬ resp.status = 200 → ¬ resp.status = 400 →
      login u p resp st = ⟨Except.ok none, st, [login_request_of u p]⟩) ∧
    (resp.status = 400 → ∀ e, lookup resp.body "error" = some e →
      strContains e "Incorrect username or password" = false →
      login u p resp st = ⟨Except.ok none, st, [login_request_of u p]⟩) ∧
    (resp.status = 400 → lookup resp.body "error" = none →
      login u p resp st
        = ⟨Except.error (PyErr.keyError "error"), st, [login_request_of u p]⟩) ∧
    (¬ rr.status = 200 → ¬ rr.status = 400 →
      relogin u rtok gp rr lr st = ⟨Except.ok none, st, [relogin_request_of u rtok]⟩) ∧
    (rr.status = 400 → ∀ e, lookup rr.body "error" = some e →
      strContains e "Failed to re-login." = false →
      relogin u rtok gp rr lr st = ⟨Except.ok none, st, [relogin_request_of u rtok]⟩) ∧
    (rr.status = 400 → lookup rr.body "error" = none →
      relogin u rtok gp rr lr st
        = ⟨Except.error (PyErr.keyError "error"), st, [relogin_request_of u rtok]⟩) := by
  refine ⟨?_, ?_, ?_, ?_, ?_, ?_⟩
  · intro h2 h4
    simp [login, h2, h4]
  · intro h4 e he hc
    simp [login, h4, he, hc]
  · intro h4 he
    simp [login, h4, he]
  · intro h2 h4
    simp [relogin, h2, h4]
  · intro h4 e he hc
    simp [relogin, h4, he, hc]
  · intro h4 he
    simp [relogin, h4, he]

/-- Witness for the amended C10 at a concrete 500 response. -/
theorem c10_witness :
    login "u" "p" { status := 500, body := [("error", "boom")] } (none : TokenStore)
      = ⟨Except.ok none, (none : TokenStore), [login_request_of "u" "p"]⟩ :=
  (c10_amended_silent_none "u" "p" "rt" "pw"
      { status := 500, body := [("error", "boom")] } { status := 0, body := [] }
      { status := 0, body := [] } (none : TokenStore)).1 (by decide) (by decide)

/-- Claim C2 evaluated on the code: the request body the source builds for
the events endpoint has no key named "until" — its fourth key is the literal
string "until:" (the source's dict literal `"until:": time_until` carries a
trailing colon inside the quoted key), so the until timestamp travels under
the wrong key on every invocation. -/
theorem c2_until_key_typo :
    lookup (sec_incidents_body "si" "sub" "2023-01-01T00:00:00Z" "2023-01-02T00:00:00Z")
        "until" = none ∧
    lookup (sec_incidents_body "si" "sub" "2023-01-01T00:00:00Z" "2023-01-02T00:00:00Z")
        "until:" = some "2023-01-02T00:00:00Z" ∧
    (∀ sii sid ts tu : String,
      (sec_incidents_body sii sid ts tu).map Prod.fst
        = ["service_instance_id", "subscription_id", "since", "until:"]) ∧
    (sec_incidents_request_of "si" "sub" "s" "u" "tok").body
      = [("service_instance_id", "si"), ("subscription_id", "sub"), ("since", "s"),
         ("until:", "u")] := by
  refine ⟨by decide, by decide, ?_, by decide⟩
  intro sii sid ts tu
  rfl

/-- Claim C1: `get_security_incidents` issues at most two events queries, a
third never; and when the first response is a 401 and `relogin` (called with
the process's global username and stored refresh token) hands back a token,
the events queries are exactly the original one and a single reissue with the
identical body under the new bearer token, with the relogin request for those
globals in the trace. -/
theorem c1_events_query_retry {β : Type}
    (sii sid ts tu tok gU gR gP : String)
    (s1 : Nat) (b1 : β) (rr lr : Response) (s2 : Nat) (b2 : β) (st : TokenStore) :
    (eventsQueries (get_security_incidents sii sid ts tu tok gU gR gP
        (s1, b1) rr lr (s2, b2) st).requests).length ≤ 2 ∧
    (s1 = 401 → ∀ t : String,
      (relogin gU gR gP rr lr st).result = Except.ok (some t) →
      eventsQueries (get_security_incidents sii sid ts tu tok gU gR gP
          (s1, b1) rr lr (s2, b2) st).requests
        = [sec_incidents_request_of sii sid ts tu tok,
           sec_incidents_request_of sii sid ts tu t] ∧
      relogin_request_of gU gR ∈ (get_security_incidents sii sid ts tu tok gU gR gP
          (s1, b1) rr lr (s2, b2) st).requests) := by
  by_cases h1 : s1 = 401
  · rcases hR : (relogin gU gR gP rr lr st).result with er | tok?
    · have hfil := relogin_no_events_queries gU gR gP rr lr st
      simp only [eventsQueries] at hfil
      constructor
      · simp only [get_security_incidents, h1, if_true, hR, eventsQueries]
        simp [List.filter_cons, hfil, sec_incidents_request_of]
      · intro _ t ht
        simp at ht
    · have hfil := relogin_no_events_queries gU gR gP rr lr st
      simp only [eventsQueries] at hfil
      have hmem := relogin_request_mem gU gR gP rr lr st
      constructor
      · simp only [get_security_incidents, h1, if_true, hR, eventsQueries]
        simp [List.filter_append, List.filter_cons, hfil, sec_incidents_request_of]
      · intro _ t ht
        injection ht with h2
        subst h2
        constructor
        · simp only [get_security_incidents, h1, if_true, hR, eventsQueries]
          simp [List.filter_append, List.filter_cons, hfil, sec_incidents_request_of,
            pyInterp]
        · simp only [get_security_incidents, h1, if_true, hR]
          simp [hmem]
  · constructor
    · simp [get_security_incidents, h1, eventsQueries, sec_incidents_request_of]
    · intro h
      exact absurd h h1

/-- Witness for C1: a 401 first response followed by a 200 relogin yields
exactly the original query and one reissue with the new token. -/
theorem c1_witness :
    eventsQueries (get_security_incidents "si" "sub" "s" "u" "tok0" "user" "rt" "pw"
        (401, (0 : Nat)) { status := 200, body := [("access_token", "t2")] }
        { status := 0, body := [] } (200, (7 : Nat)) (none : TokenStore)).requests
      = [sec_incidents_request_of "si" "sub" "s" "u" "tok0",
         sec_incidents_request_of "si" "sub" "s" "u" "t2"] ∧
    relogin_request_of "user" "rt" ∈ (get_security_incidents "si" "sub" "s" "u" "tok0"
        "user" "rt" "pw" (401, (0 : Nat))
        { status := 200, body := [("access_token", "t2")] }
        { status := 0, body := [] } (200, (7 : Nat)) (none : TokenStore)).requests :=
  (c1_events_query_retry "si" "sub" "s" "u" "tok0" "user" "rt" "pw" 401 (0 : Nat)
      { status := 200, body := [("access_token", "t2")] } { status := 0, body := [] }
      200 (7 : Nat) (none : TokenStore)).2 rfl "t2" rfl

end F5CS
